import Mathlib

/-!
Verification development for the truss-review GitHub bot.

The definitions below are a shallow embedding of the TypeScript sources:
`src/index.ts` (the `pull_request.opened` and `pull_request.labeled`
handlers with their in-flight dedup set), `src/prompts.ts`,
`src/user-profiles.ts` and `src/services/giphy.ts`.  External effects
(diff fetch, completion calls, Giphy search, comment posting) are driven
by an explicit environment record describing the outcome of each call,
and each handler run produces a trace of posted comments, post attempts,
external-call count and the final dedup set.
-/

set_option maxRecDepth 4000

namespace TrussReview

/-- Model of JavaScript `String.prototype.toLowerCase` at the character
level, for the ASCII range used by this code base. -/
def jsCharToLower : Char → Char
  | 'A' => 'a'
  | 'B' => 'b'
  | 'C' => 'c'
  | 'D' => 'd'
  | 'E' => 'e'
  | 'F' => 'f'
  | 'G' => 'g'
  | 'H' => 'h'
  | 'I' => 'i'
  | 'J' => 'j'
  | 'K' => 'k'
  | 'L' => 'l'
  | 'M' => 'm'
  | 'N' => 'n'
  | 'O' => 'o'
  | 'P' => 'p'
  | 'Q' => 'q'
  | 'R' => 'r'
  | 'S' => 's'
  | 'T' => 't'
  | 'U' => 'u'
  | 'V' => 'v'
  | 'W' => 'w'
  | 'X' => 'x'
  | 'Y' => 'y'
  | 'Z' => 'z'
  | c => c

/-- Model of JavaScript `toLowerCase` on strings. -/
def jsToLower (s : String) : String :=
  ⟨s.data.map jsCharToLower⟩

/-- Model of the JavaScript regular-expression class `\s` (whitespace). -/
def jsIsWhitespace (c : Char) : Bool :=
  c = ' ' || c = '\t' || c = '\n' || c = '\r' || c = '\x0B' || c = '\x0C'

/-- Model of `term.replace(/\s+/g, "")`: remove every whitespace character. -/
def stripWhitespace (s : String) : String :=
  ⟨s.data.filter (fun c => !jsIsWhitespace c)⟩

/-- PR statistics read off the event payload (`src/index.ts`). -/
structure PRStats where
  changedFiles : Nat
  additions : Nat
  deletions : Nat
deriving DecidableEq, Repr

/-- `createUserPrompt` from the prompts module (the variant with optional
author and style-guide contexts): a stats block, then the author block if
the argument is truthy, then the style-guide text if truthy, then the
fenced diff block.  A JavaScript optional string parameter is truthy
exactly when it is provided and non-empty. -/
def createUserPrompt (stats : PRStats) (diff : String)
    (authorContext : Option String) (styleGuideContext : Option String) : String :=
  let prompt := "Review this PR:\n\n**Stats:**\n- " ++ toString stats.changedFiles ++
    " files changed\n- " ++ toString stats.additions ++ " additions\n- " ++
    toString stats.deletions ++ " deletions\n"
  let prompt := prompt ++
    (match authorContext with
     | some c => if c = "" then "" else "\n**Author Info:**\n" ++ c ++ "\n"
     | none => "")
  let prompt := prompt ++
    (match styleGuideContext with
     | some c => if c = "" then "" else c
     | none => "")
  prompt ++ "\n**Diff:**\n```diff\n" ++ diff ++ "\n```"

/-- `createSuccessComment` from `src/prompts.ts`. -/
def createSuccessComment (username : String) (roast : String) : String :=
  "👋 Thanks for opening this PR, @" ++ username ++ "! \n\n" ++ roast ++ "\n"

/-- `createFallbackComment` from `src/prompts.ts`. -/
def createFallbackComment (username : String) : String :=
  "👋 Thanks for opening this PR, @" ++ username ++
    "! \n\n❌ Failed to roast your code. Even the AI couldn\x27t handle this mess. 💀"

/-- Profile text for key `kenkantzer-truss` (`src/user-profiles.ts`). -/
def kenProfile : String :=
  "\n  Ken Kantzer. CTO. Lives in LA. Has a cat. Did Political Science & Computer Science from Princeton.\n  History working in cybersecurity and clearance roles. Core engineer of Truss, responsible\n  for most of the things in the app.\n  "

/-- Profile text for key `ydev-truss` (`src/user-profiles.ts`). -/
def ydevProfile : String :=
  "\n  Yev Deviatov. Senior Engineer. Lives in Maryland. Did GIS from University of Maryland.\n  Plays World of Warcraft. React and TypeScript expert. Built out workpapers feature, our SSO/SAML feature,\n  "

/-- Profile text for key `ChrisChenCSQ` (`src/user-profiles.ts`). -/
def chrisProfile : String :=
  "\n  Songqi Chen. Software Engineer. Lives in Atlanta. Has a cat. Drives a Tesla. Plays League of Legends. \n  Did CS Undergrad & Masters from Emory University. One of the core engineers of Truss. Responsible for \n  our Electron desktop, our Tax Prep integrations with SAM and Filed.\n  "

/-- Profile text for key `mohammad-truss` (`src/user-profiles.ts`). -/
def mohammadProfile : String :=
  "\n  Mohammad Arjamand Ali. Software Engineer. Lives in Ypsilanti, MI. Did CS from Eastern Michigan University.\n  Worked at Chick-fil-A once. \n  "

/-- Profile text for key `satyadev-truss` (`src/user-profiles.ts`). -/
def satyadevProfile : String :=
  "\n  Dev Moolagani. Software Engineer Intern. Lives in Ann Arbor, MI. Doing CS from University of Michigan.\n  Plays Soccer.\n  "

/-- Profile text for key `JeffMW99` (`src/user-profiles.ts`). -/
def jeffProfile : String :=
  "\n  Jeff Wright. Software Engineer Intern. Lives in Arlington, TX. Doing CS from University of Texas at Arlington.\n  Has a dog. Built Truss Assistant, our AI Chatbot. Used to work as a bartender. Also worked\n  in sales at Nissan.\n  "

/-- The `userProfiles` record from `src/user-profiles.ts`, as an
association list in source order. -/
def userProfiles : List (String × String) :=
  [("kenkantzer-truss", kenProfile),
   ("ydev-truss", ydevProfile),
   ("ChrisChenCSQ", chrisProfile),
   ("mohammad-truss", mohammadProfile),
   ("satyadev-truss", satyadevProfile),
   ("JeffMW99", jeffProfile)]

/-- `getUserContext` from `src/user-profiles.ts`:
`userProfiles[githubUsername.toLowerCase()] || null`.  A missing key and
a falsy (empty-string) value both yield `null`, modelled as `none`. -/
def getUserContext (githubUsername : String) : Option String :=
  match userProfiles.lookup (jsToLower githubUsername) with
  | some v => if v = "" then none else some v
  | none => none

/-- The `images.original` object of a Giphy search hit. -/
structure GifOriginal where
  url : String
deriving DecidableEq, Repr

/-- The `images` object of a Giphy search hit. -/
structure GifImages where
  original : GifOriginal
deriving DecidableEq, Repr

/-- One entry of `result.data` in a Giphy search response. -/
structure GifEntry where
  images : GifImages
  title : String
  id : String
deriving DecidableEq, Repr

/-- Outcome of the Giphy provider call inside `searchGif`: either the
call throws, or it returns a response whose `data` is a list of hits. -/
inductive GiphyOutcome where
  | err : GiphyOutcome
  | ok (data : List GifEntry) : GiphyOutcome
deriving DecidableEq, Repr

/-- `GiphyService.searchGif` from `src/services/giphy.ts`, as a function
of the provider-call outcome: on a thrown provider error the catch block
returns `null`; on a response with at least one hit it returns
`data[0].images.original.url`; on an empty response it returns `null`.
The search term only feeds the provider query. -/
def searchGif (_searchTerm : String) (outcome : GiphyOutcome) : Option String :=
  match outcome with
  | .err => none
  | .ok data =>
    match data with
    | [] => none
    | e :: _ => some e.images.original.url

/-- The fields of a `pull_request` webhook event consumed by the
handlers in `src/index.ts`. -/
structure PREvent where
  owner : String
  repo : String
  number : Nat
  authorLogin : String
  additions : Nat
  deletions : Nat
  changedFiles : Nat
  labelName : String
deriving DecidableEq, Repr

/-- The dedup key `` `${owner}/${repo}#${number}` `` built in both
handlers of `src/index.ts`. -/
def dedupKey (ev : PREvent) : String :=
  ev.owner ++ "/" ++ ev.repo ++ "#" ++ toString ev.number

/-- Outcomes of the external calls made during one handler run:
whether the diff fetch succeeds and its text, the result of the two
completion calls, the Giphy provider outcome, and whether each
`createComment` call succeeds. -/
structure Env where
  diffOk : Bool
  diffText : String
  roastRes : Except Unit String
  gifTermRes : Except Unit String
  giphy : GiphyOutcome
  successPostOk : Bool
  fallbackPostOk : Bool

/-- Observable trace of one handler run: comment bodies successfully
posted (in order), comment bodies whose posting was attempted (in
order), the number of external API calls made, and the current
`processedPRs` set. -/
structure Trace where
  posted : List String
  attempts : List String
  calls : Nat
  procSet : List String
deriving DecidableEq, Repr

/-- `processedPRs.has` (membership in the in-flight set). -/
def setHas (s : List String) (k : String) : Bool :=
  s.contains k

/-- `processedPRs.add` (JavaScript `Set.add`: no duplicates). -/
def setAdd (s : List String) (k : String) : List String :=
  if s.contains k then s else k :: s

/-- `processedPRs.delete` (JavaScript `Set.delete`). -/
def setDelete (s : List String) (k : String) : List String :=
  s.filter (fun x => x != k)

/-- The trace at the start of a run over in-flight set `s`. -/
def initTrace (s : List String) : Trace :=
  { posted := [], attempts := [], calls := 0, procSet := s }

/-- One `octokit.issues.createComment` call: the call is always counted
and the body recorded as an attempt; if the call succeeds the body is
recorded as posted, otherwise the call throws (carrying the trace at the
point of the throw). -/
def postComment (callOk : Bool) (body : String) (t : Trace) : Except Trace Trace :=
  let t1 := { t with calls := t.calls + 1, attempts := t.attempts ++ [body] }
  if callOk then Except.ok { t1 with posted := t1.posted ++ [body] } else Except.error t1

/-- The `try` block of the `pull_request.opened` handler
(`src/index.ts` lines 21–53): fetch the diff, read the stats, look up
the author context, generate the roast, post the success comment, then
delete the dedup key.  Any failing step throws, carrying the trace at
the point of the throw. -/
def tryBodyOpened (ev : PREvent) (env : Env) (t : Trace) : Except Trace Trace :=
  let t1 := { t with calls := t.calls + 1 }
  if env.diffOk then
    let _stats : PRStats :=
      { additions := ev.additions, deletions := ev.deletions, changedFiles := ev.changedFiles }
    let _authorContext := getUserContext ev.authorLogin
    let t2 := { t1 with calls := t1.calls + 1 }
    match env.roastRes with
    | .error _ => Except.error t2
    | .ok roast =>
      match postComment env.successPostOk (createSuccessComment ev.authorLogin roast) t2 with
      | .error t3 => Except.error t3
      | .ok t3 => Except.ok { t3 with procSet := setDelete t3.procSet (dedupKey ev) }
  else Except.error t1

/-- The shared `catch` block of both handlers (`src/index.ts` lines
54–69 and 150–165): log, delete the dedup key, then try to post the
fallback comment and delete again; if that post throws, log and delete
again. -/
def catchBlock (ev : PREvent) (env : Env) (terr : Trace) : Trace :=
  let k := dedupKey ev
  let t1 := { terr with procSet := setDelete terr.procSet k }
  match postComment env.fallbackPostOk (createFallbackComment ev.authorLogin) t1 with
  | .ok t2 => { t2 with procSet := setDelete t2.procSet k }
  | .error t2 => { t2 with procSet := setDelete t2.procSet k }

/-- The `pull_request.opened` handler (`src/index.ts` lines 10–70) as a
function from event, call outcomes and current in-flight set to the
handler's result: `Except.ok` is a normal return, `Except.error` would
be an exception escaping to the event dispatcher. -/
def runOpenedE (ev : PREvent) (env : Env) (s : List String) : Except Trace Trace :=
  let k := dedupKey ev
  if setHas s k then Except.ok (initTrace s)
  else
    let t0 := initTrace (setAdd s k)
    match tryBodyOpened ev env t0 with
    | .ok t => Except.ok t
    | .error terr => Except.ok (catchBlock ev env terr)

/-- The trace produced by one `pull_request.opened` handler run. -/
def runOpened (ev : PREvent) (env : Env) (s : List String) : Trace :=
  match runOpenedE ev env s with
  | .ok t => t
  | .error t => t

/-- The `try` block of the `pull_request.labeled` handler
(`src/index.ts` lines 100–149): fetch the diff, read the stats, look up
the author and style-guide contexts, generate the roast, generate the
GIF search term, search Giphy, build the comment body (appending the
hashtag and image lines when a GIF was found), post it, then delete the
dedup key. -/
def tryBodyLabeled (ev : PREvent) (env : Env) (t : Trace) : Except Trace Trace :=
  let t1 := { t with calls := t.calls + 1 }
  if env.diffOk then
    let _stats : PRStats :=
      { additions := ev.additions, deletions := ev.deletions, changedFiles := ev.changedFiles }
    let _authorContext := getUserContext ev.authorLogin
    let t2 := { t1 with calls := t1.calls + 1 }
    match env.roastRes with
    | .error _ => Except.error t2
    | .ok roast =>
      let t3 := { t2 with calls := t2.calls + 1 }
      match env.gifTermRes with
      | .error _ => Except.error t3
      | .ok gifSearchTerm =>
        let t4 := { t3 with calls := t3.calls + 1 }
        let gifUrl := searchGif gifSearchTerm env.giphy
        let commentBody :=
          match gifUrl with
          | some url =>
            createSuccessComment ev.authorLogin roast ++ "\n\n#" ++
              jsToLower (stripWhitespace gifSearchTerm) ++ "\n![" ++ gifSearchTerm ++
              "](" ++ url ++ ")"
          | none => createSuccessComment ev.authorLogin roast
        match postComment env.successPostOk commentBody t4 with
        | .error t5 => Except.error t5
        | .ok t5 => Except.ok { t5 with procSet := setDelete t5.procSet (dedupKey ev) }
  else Except.error t1

/-- The `pull_request.labeled` handler (`src/index.ts` lines 84–166):
labels other than `truss-review` return immediately, then the dedup
check and the try/catch pipeline run as in the opened handler. -/
def runLabeledE (ev : PREvent) (env : Env) (s : List String) : Except Trace Trace :=
  if ev.labelName != "truss-review" then Except.ok (initTrace s)
  else
    let k := dedupKey ev
    if setHas s k then Except.ok (initTrace s)
    else
      let t0 := initTrace (setAdd s k)
      match tryBodyLabeled ev env t0 with
      | .ok t => Except.ok t
      | .error terr => Except.ok (catchBlock ev env terr)

/-- The trace produced by one `pull_request.labeled` handler run. -/
def runLabeled (ev : PREvent) (env : Env) (s : List String) : Trace :=
  match runLabeledE ev env s with
  | .ok t => t
  | .error t => t

/-- The hashtag as claim C5 states it: the search term with
non-alphanumeric and whitespace characters stripped and the result
lowercased. -/
def claimHashtag (term : String) : String :=
  jsToLower ⟨term.data.filter Char.isAlphanum⟩

/-- The stats block of the user prompt, as the spec describes it. -/
def specStatsBlock (stats : PRStats) : String :=
  "Review this PR:\n\n**Stats:**\n- " ++ toString stats.changedFiles ++
    " files changed\n- " ++ toString stats.additions ++ " additions\n- " ++
    toString stats.deletions ++ " deletions\n"

/-- The optional author block as claim C9 states it: present exactly
when the argument is present. -/
def claimAuthorBlock : Option String → String
  | some c => "\n**Author Info:**\n" ++ c ++ "\n"
  | none => ""

/-- The optional style-guide block as claim C9 states it: present
exactly when the argument is present. -/
def claimStyleBlock : Option String → String
  | some c => c
  | none => ""

/-- The fenced diff block of the user prompt, as the spec describes it. -/
def specDiffBlockAux (diff : String) : String :=
  "\n**Diff:**\n```diff\n" ++ diff ++ "\n```"

/-- The user prompt as claim C9 states it: stats block, author block iff
present, style-guide block iff present, fenced diff block, concatenated
in that order. -/
def claimUserPrompt (stats : PRStats) (diff : String)
    (authorContext : Option String) (styleGuideContext : Option String) : String :=
  specStatsBlock stats ++ claimAuthorBlock authorContext ++
    claimStyleBlock styleGuideContext ++ specDiffBlockAux diff

/-- The optional author block as amended: present exactly when the
argument is present and non-empty (JavaScript truthiness). -/
def amendedAuthorBlock : Option String → String
  | some c => if c = "" then "" else "\n**Author Info:**\n" ++ c ++ "\n"
  | none => ""

/-- The optional style-guide block as amended: present exactly when the
argument is present and non-empty (JavaScript truthiness). -/
def amendedStyleBlock : Option String → String
  | some c => if c = "" then "" else c
  | none => ""

/-- A concrete pull-request event used to instantiate theorems. -/
def evA : PREvent :=
  { owner := "acme", repo := "app", number := 7, authorLogin := "alice",
    additions := 10, deletions := 2, changedFiles := 3, labelName := "truss-review" }

/-- A concrete environment in which every external call succeeds and the
Giphy search finds one GIF. -/
def envAllOk : Env :=
  { diffOk := true, diffText := "+foo\n-bar", roastRes := Except.ok "R",
    gifTermRes := Except.ok "Oh!No",
    giphy := GiphyOutcome.ok [⟨⟨⟨"https://g/1.gif"⟩⟩, "t", "1"⟩],
    successPostOk := true, fallbackPostOk := true }

/-- A concrete environment in which the success-comment post fails but
everything else succeeds. -/
def envSuccessPostFails : Env :=
  { envAllOk with successPostOk := false }

/-- A concrete environment in which roast generation throws. -/
def envRoastFails : Env :=
  { envAllOk with roastRes := Except.error () }

/-- A concrete environment in which the Giphy provider call throws. -/
def envGiphyErr : Env :=
  { envAllOk with giphy := GiphyOutcome.err }

/-- A concrete environment in which both comment posts fail. -/
def envAllPostsFail : Env :=
  { envAllOk with successPostOk := false, fallbackPostOk := false }

/-- The concrete stats record of the spec's prompt scenario. -/
def statsW : PRStats :=
  { changedFiles := 3, additions := 10, deletions := 2 }

theorem jsCharToLower_ne_C (c : Char) : jsCharToLower c ≠ 'C' := by
  unfold jsCharToLower
  split <;> simp_all

theorem jsCharToLower_ne_J (c : Char) : jsCharToLower c ≠ 'J' := by
  unfold jsCharToLower
  split <;> simp_all

theorem jsToLower_ne_chrisKey (s : String) : jsToLower s ≠ "ChrisChenCSQ" := by
  intro h
  have hd : (s.data.map jsCharToLower) = "ChrisChenCSQ".data := congrArg String.data h
  cases hdata : s.data with
  | nil => rw [hdata] at hd; simp at hd
  | cons c cs =>
    rw [hdata] at hd
    simp only [List.map_cons] at hd
    exact jsCharToLower_ne_C c (List.head_eq_of_cons_eq hd)

theorem jsToLower_ne_jeffKey (s : String) : jsToLower s ≠ "JeffMW99" := by
  intro h
  have hd : (s.data.map jsCharToLower) = "JeffMW99".data := congrArg String.data h
  cases hdata : s.data with
  | nil => rw [hdata] at hd; simp at hd
  | cons c cs =>
    rw [hdata] at hd
    simp only [List.map_cons] at hd
    exact jsCharToLower_ne_J c (List.head_eq_of_cons_eq hd)

theorem getUserContext_never_chris (s : String) : getUserContext s ≠ some chrisProfile := by
  intro h
  unfold getUserContext at h
  rcases hl : userProfiles.lookup (jsToLower s) with _ | v
  · rw [hl] at h; simp at h
  · rw [hl] at h
    by_cases hv : v = ""
    · simp [hv] at h
    · simp only [hv, if_false] at h
      have hvp : v = chrisProfile := Option.some.inj h
      subst hvp
      simp only [userProfiles, List.lookup] at hl
      split at hl
      · exact absurd (Option.some.inj hl) (by decide)
      · split at hl
        · exact absurd (Option.some.inj hl) (by decide)
        · split at hl
          · rename_i heq
            exact jsToLower_ne_chrisKey s (eq_of_beq heq)
          · split at hl
            · exact absurd (Option.some.inj hl) (by decide)
            · split at hl
              · exact absurd (Option.some.inj hl) (by decide)
              · split at hl
                · exact absurd (Option.some.inj hl) (by decide)
                · simp at hl

theorem getUserContext_never_jeff (s : String) : getUserContext s ≠ some jeffProfile := by
  intro h
  unfold getUserContext at h
  rcases hl : userProfiles.lookup (jsToLower s) with _ | v
  · rw [hl] at h; simp at h
  · rw [hl] at h
    by_cases hv : v = ""
    · simp [hv] at h
    · simp only [hv, if_false] at h
      have hvp : v = jeffProfile := Option.some.inj h
      subst hvp
      simp only [userProfiles, List.lookup] at hl
      split at hl
      · exact absurd (Option.some.inj hl) (by decide)
      · split at hl
        · exact absurd (Option.some.inj hl) (by decide)
        · split at hl
          · exact absurd (Option.some.inj hl) (by decide)
          · split at hl
            · exact absurd (Option.some.inj hl) (by decide)
            · split at hl
              · exact absurd (Option.some.inj hl) (by decide)
              · split at hl
                · rename_i heq
                  exact jsToLower_ne_jeffKey s (eq_of_beq heq)
                · simp at hl

/-- C10: `getUserContext` lowercases its argument before the lookup
while the table keeps the mixed-case keys `ChrisChenCSQ` and `JeffMW99`,
so those two profiles are never returned for any input (in particular
not for the exact stored keys), whereas every all-lowercase key's
profile is returned for every case variant of that key. -/
theorem getUserContext_case_sensitivity :
    (∀ s : String, getUserContext s ≠ some chrisProfile ∧ getUserContext s ≠ some jeffProfile)
    ∧ getUserContext "ChrisChenCSQ" = none
    ∧ getUserContext "JeffMW99" = none
    ∧ (∀ s : String, jsToLower s = "kenkantzer-truss" → getUserContext s = some kenProfile)
    ∧ (∀ s : String, jsToLower s = "ydev-truss" → getUserContext s = some ydevProfile)
    ∧ (∀ s : String, jsToLower s = "mohammad-truss" → getUserContext s = some mohammadProfile)
    ∧ (∀ s : String, jsToLower s = "satyadev-truss" → getUserContext s = some satyadevProfile) := by
  refine ⟨fun s => ⟨getUserContext_never_chris s, getUserContext_never_jeff s⟩,
    by decide, by decide, ?_, ?_, ?_, ?_⟩ <;>
    · intro s h
      unfold getUserContext
      rw [h]
      decide

/-- Witness for C10 at concrete inputs: a case variant of
`kenkantzer-truss` finds Ken Kantzer's profile, while the exact stored
key `ChrisChenCSQ` does not find Songqi Chen's profile. -/
theorem getUserContext_case_sensitivity_witness :
    getUserContext "KenKantzer-TRUSS" = some kenProfile
    ∧ getUserContext "ChrisChenCSQ" ≠ some chrisProfile :=
  ⟨getUserContext_case_sensitivity.2.2.2.1 "KenKantzer-TRUSS" (by decide),
   (getUserContext_case_sensitivity.1 "ChrisChenCSQ").1⟩

theorem setHas_setDelete (l : List String) (k : String) :
    setHas (setDelete l k) k = false := by
  simp [setHas, setDelete]

/-- C1: for an accepted trigger (not in flight; for `labeled`, label
`truss-review`) one handler run posts exactly one comment, except that
zero comments are posted when the fallback `createComment` call itself
fails (which is only reachable when a posting call failed). -/
theorem one_comment_per_accepted_trigger (ev : PREvent) (env : Env) (s : List String)
    (h : setHas s (dedupKey ev) = false) :
    ((runOpened ev env s).posted.length = 1
      ∨ ((runOpened ev env s).posted = [] ∧ env.fallbackPostOk = false))
    ∧ (ev.labelName = "truss-review" →
      ((runLabeled ev env s).posted.length = 1
        ∨ ((runLabeled ev env s).posted = [] ∧ env.fallbackPostOk = false))) := by
  obtain ⟨dOk, dTxt, rr, gr, gi, sOk, fOk⟩ := env
  constructor
  · cases dOk <;> cases sOk <;> cases fOk <;> rcases rr with _ | r <;>
      simp [runOpened, runOpenedE, tryBodyOpened, catchBlock, postComment, h, initTrace]
  · intro hlab
    cases dOk <;> cases sOk <;> cases fOk <;> rcases rr with _ | r <;> rcases gr with _ | g <;>
      rcases gi with _ | ⟨_ | ⟨e, rest⟩⟩ <;>
      simp [runLabeled, runLabeledE, tryBodyLabeled, catchBlock, postComment, h, hlab,
        initTrace, searchGif]

/-- Witness for C1: a fully successful run on a PR not in flight posts
exactly one comment, for both handlers. -/
theorem one_comment_per_accepted_trigger_witness :
    ((runOpened evA envAllOk []).posted.length = 1
      ∨ ((runOpened evA envAllOk []).posted = [] ∧ envAllOk.fallbackPostOk = false))
    ∧ ((runLabeled evA envAllOk []).posted.length = 1
      ∨ ((runLabeled evA envAllOk []).posted = [] ∧ envAllOk.fallbackPostOk = false)) := by
  have h := one_comment_per_accepted_trigger evA envAllOk [] (by decide)
  exact ⟨h.1, h.2 rfl⟩

/-- C2: whenever a run begins processing (its key is inserted because
the trigger was accepted), the key is absent from the in-flight set when
the run completes, in every outcome of every external call. -/
theorem dedup_key_released (ev : PREvent) (env : Env) (s : List String)
    (h : setHas s (dedupKey ev) = false) :
    setHas (runOpened ev env s).procSet (dedupKey ev) = false
    ∧ (ev.labelName = "truss-review" →
      setHas (runLabeled ev env s).procSet (dedupKey ev) = false) := by
  obtain ⟨dOk, dTxt, rr, gr, gi, sOk, fOk⟩ := env
  constructor
  · cases dOk <;> cases sOk <;> cases fOk <;> rcases rr with _ | r <;>
      simp [runOpened, runOpenedE, tryBodyOpened, catchBlock, postComment, h, initTrace,
        setHas_setDelete]
  · intro hlab
    cases dOk <;> cases sOk <;> cases fOk <;> rcases rr with _ | r <;> rcases gr with _ | g <;>
      rcases gi with _ | ⟨_ | ⟨e, rest⟩⟩ <;>
      simp [runLabeled, runLabeledE, tryBodyLabeled, catchBlock, postComment, h, hlab,
        initTrace, searchGif, setHas_setDelete]

/-- Witness for C2: after a run in which both comment posts fail, the
key of the concrete event is absent from the in-flight set. -/
theorem dedup_key_released_witness :
    setHas (runOpened evA envAllPostsFail []).procSet (dedupKey evA) = false
    ∧ setHas (runLabeled evA envAllPostsFail []).procSet (dedupKey evA) = false := by
  have h := dedup_key_released evA envAllPostsFail [] (by decide)
  exact ⟨h.1, h.2 rfl⟩

/-- C3: an event whose dedup key is already in flight is ignored
entirely: the run posts nothing, attempts nothing, makes zero external
calls and leaves the in-flight set unchanged (`initTrace s` is exactly
the trace with `posted = []`, `attempts = []`, `calls = 0`,
`procSet = s`). -/
theorem inflight_duplicate_ignored (ev : PREvent) (env : Env) (s : List String)
    (h : setHas s (dedupKey ev) = true) :
    runOpened ev env s = initTrace s ∧ runLabeled ev env s = initTrace s := by
  constructor
  · simp [runOpened, runOpenedE, h]
  · by_cases hl : ev.labelName = "truss-review"
    · simp [runLabeled, runLabeledE, h, hl]
    · simp [runLabeled, runLabeledE, h, hl]

/-- Witness for C3: with the concrete event's key in flight, both
handlers leave an unchanged trace. -/
theorem inflight_duplicate_ignored_witness :
    runOpened evA envAllOk [dedupKey evA] = initTrace [dedupKey evA]
    ∧ runLabeled evA envAllOk [dedupKey evA] = initTrace [dedupKey evA] :=
  inflight_duplicate_ignored evA envAllOk [dedupKey evA] (by decide)

/-- C8: a `labeled` event whose label is not `truss-review` is a
complete no-op: nothing posted, nothing attempted, zero external calls,
the in-flight set untouched and no dedup key inserted. -/
theorem nonsentinel_label_noop (ev : PREvent) (env : Env) (s : List String)
    (h : ev.labelName ≠ "truss-review") :
    runLabeled ev env s = initTrace s := by
  simp [runLabeled, runLabeledE, h]

/-- Witness for C8: a concrete event labeled `docs` changes nothing. -/
theorem nonsentinel_label_noop_witness :
    runLabeled { evA with labelName := "docs" } envAllOk [] = initTrace [] :=
  nonsentinel_label_noop { evA with labelName := "docs" } envAllOk [] (by decide)

theorem runOpenedE_always_ok (ev : PREvent) (env : Env) (s : List String) :
    ∃ t, runOpenedE ev env s = Except.ok t := by
  by_cases hk : setHas s (dedupKey ev) = true
  · exact ⟨initTrace s, by simp [runOpenedE, hk]⟩
  · cases htb : tryBodyOpened ev env (initTrace (setAdd s (dedupKey ev))) with
    | error t => exact ⟨catchBlock ev env t, by simp [runOpenedE, hk, htb]⟩
    | ok t => exact ⟨t, by simp [runOpenedE, hk, htb]⟩

theorem runLabeledE_always_ok (ev : PREvent) (env : Env) (s : List String) :
    ∃ t, runLabeledE ev env s = Except.ok t := by
  by_cases hl : ev.labelName = "truss-review"
  · by_cases hk : setHas s (dedupKey ev) = true
    · exact ⟨initTrace s, by simp [runLabeledE, hl, hk]⟩
    · cases htb : tryBodyLabeled ev env (initTrace (setAdd s (dedupKey ev))) with
      | error t => exact ⟨catchBlock ev env t, by simp [runLabeledE, hl, hk, htb]⟩
      | ok t => exact ⟨t, by simp [runLabeledE, hl, hk, htb]⟩
  · exact ⟨initTrace s, by simp [runLabeledE, hl]⟩

/-- C7: when roast generation throws on an accepted trigger (diff fetch
succeeded) and the fallback post call succeeds, the handler posts
exactly the fallback comment, whose body is the fixed template with the
author's username substituted; moreover, for every outcome of every
external call, both handlers return normally — no exception escapes to
the event dispatcher. -/
theorem roast_failure_posts_fallback (ev : PREvent) (env : Env) (s : List String)
    (h : setHas s (dedupKey ev) = false) (hd : env.diffOk = true)
    (hr : env.roastRes = Except.error ()) (hf : env.fallbackPostOk = true) :
    (runOpened ev env s).posted = [createFallbackComment ev.authorLogin]
    ∧ (ev.labelName = "truss-review" →
      (runLabeled ev env s).posted = [createFallbackComment ev.authorLogin])
    ∧ createFallbackComment ev.authorLogin =
      "👋 Thanks for opening this PR, @" ++ ev.authorLogin ++
        "! \n\n❌ Failed to roast your code. Even the AI couldn\x27t handle this mess. 💀"
    ∧ (∀ env' : Env, (∃ t, runOpenedE ev env' s = Except.ok t)
        ∧ ∃ t, runLabeledE ev env' s = Except.ok t) := by
  refine ⟨?_, ?_, rfl,
    fun env' => ⟨runOpenedE_always_ok ev env' s, runLabeledE_always_ok ev env' s⟩⟩
  · simp [runOpened, runOpenedE, tryBodyOpened, catchBlock, postComment, h, hd, hr, hf,
      initTrace]
  · intro hlab
    simp [runLabeled, runLabeledE, tryBodyLabeled, catchBlock, postComment, h, hlab, hd,
      hr, hf, initTrace]

/-- Witness for C7: a concrete run with a failed roast posts exactly
the fallback comment, and a concrete fully-successful run returns
normally. -/
theorem roast_failure_posts_fallback_witness :
    (runOpened evA envRoastFails []).posted = [createFallbackComment evA.authorLogin]
    ∧ (runLabeled evA envRoastFails []).posted = [createFallbackComment evA.authorLogin]
    ∧ ∃ t, runOpenedE evA envAllOk [] = Except.ok t := by
  have h := roast_failure_posts_fallback evA envRoastFails [] (by decide) rfl rfl rfl
  exact ⟨h.1, h.2.1 rfl, (h.2.2.2 envAllOk).1⟩

/-- Counterexample to C4 as stated: in a run where the success-comment
post call itself fails, the handler does attempt further recovery — it
posts the fallback comment — so "the failure is only logged and no
further recovery is attempted" is false for the success-post case. -/
theorem delivery_failure_counterexample :
    envSuccessPostFails.successPostOk = false
    ∧ (runOpened evA envSuccessPostFails []).attempts =
      [createSuccessComment "alice" "R", createFallbackComment "alice"]
    ∧ (runOpened evA envSuccessPostFails []).posted = [createFallbackComment "alice"] :=
  ⟨rfl, by decide, by decide⟩

/-- C4 as amended: only the fallback comment-post has no recovery —
when it fails, nothing is delivered and the attempt sequence ends with
the fallback body; a failed success-comment post instead triggers one
fallback attempt; in every outcome the dedup key is released. -/
theorem delivery_failure_semantics (ev : PREvent) (env : Env) (s : List String)
    (h : setHas s (dedupKey ev) = false) :
    setHas (runOpened ev env s).procSet (dedupKey ev) = false
    ∧ (env.diffOk = true → env.successPostOk = false → ∀ r, env.roastRes = Except.ok r →
        (runOpened ev env s).attempts =
          [createSuccessComment ev.authorLogin r, createFallbackComment ev.authorLogin]
        ∧ (env.fallbackPostOk = true →
            (runOpened ev env s).posted = [createFallbackComment ev.authorLogin])
        ∧ (env.fallbackPostOk = false → (runOpened ev env s).posted = []))
    ∧ (env.fallbackPostOk = false →
        (env.diffOk = false ∨ env.roastRes = Except.error () ∨ env.successPostOk = false) →
        (runOpened ev env s).posted = []
        ∧ (runOpened ev env s).attempts.getLast? =
          some (createFallbackComment ev.authorLogin))
    ∧ (ev.labelName = "truss-review" → env.fallbackPostOk = false →
        (env.diffOk = false ∨ env.roastRes = Except.error ()
          ∨ env.gifTermRes = Except.error () ∨ env.successPostOk = false) →
        setHas (runLabeled ev env s).procSet (dedupKey ev) = false
        ∧ (runLabeled ev env s).posted = []
        ∧ (runLabeled ev env s).attempts.getLast? =
          some (createFallbackComment ev.authorLogin)) := by
  obtain ⟨dOk, dTxt, rr, gr, gi, sOk, fOk⟩ := env
  refine ⟨?_, ?_, ?_, ?_⟩
  · cases dOk <;> cases sOk <;> cases fOk <;> rcases rr with _ | r <;>
      simp [runOpened, runOpenedE, tryBodyOpened, catchBlock, postComment, h, initTrace,
        setHas_setDelete]
  · intro hd hs r hr
    subst hd hs hr
    cases fOk <;>
      simp [runOpened, runOpenedE, tryBodyOpened, catchBlock, postComment, h, initTrace]
  · intro hf hdisj
    subst hf
    rcases hdisj with h1 | h1 | h1 <;> cases dOk <;> rcases rr with _ | r <;>
      cases sOk <;>
      simp_all [runOpened, runOpenedE, tryBodyOpened, catchBlock, postComment, h, initTrace]
  · intro hlab hf hdisj
    subst hf
    rcases hdisj with h1 | h1 | h1 | h1 <;> cases dOk <;>
      rcases rr with _ | r <;> rcases gr with _ | g <;> cases sOk <;>
      rcases gi with _ | ⟨_ | ⟨e, rest⟩⟩ <;>
      simp_all [runLabeled, runLabeledE, tryBodyLabeled, catchBlock, postComment, h,
        initTrace, searchGif, setHas_setDelete]

/-- Witness for C4 (amended) at a concrete run in which both comment
posts fail: nothing is delivered, the attempts end with the fallback
body, and the key is released. -/
theorem delivery_failure_semantics_witness :
    setHas (runOpened evA envAllPostsFail []).procSet (dedupKey evA) = false
    ∧ (runOpened evA envAllPostsFail []).posted = []
    ∧ (runOpened evA envAllPostsFail []).attempts.getLast? =
      some (createFallbackComment evA.authorLogin) := by
  have h := delivery_failure_semantics evA envAllPostsFail [] (by decide)
  have hc := h.2.2.1 rfl (Or.inr (Or.inr rfl))
  exact ⟨h.1, hc.1, hc.2⟩

/-- Counterexample to C5 as stated: for search term `Oh!No` the code
builds hashtag `#oh!no` (only whitespace is removed before
lowercasing), not `#ohno` as the claim's "non-alphanumeric … stripped"
would require. -/
theorem hashtag_counterexample :
    (runLabeled evA envAllOk []).posted =
      [createSuccessComment "alice" "R" ++ "\n\n#oh!no\n![Oh!No](https://g/1.gif)"]
    ∧ claimHashtag "Oh!No" = "ohno"
    ∧ (runLabeled evA envAllOk []).posted ≠
      [createSuccessComment "alice" "R" ++ "\n\n#" ++ claimHashtag "Oh!No" ++
        "\n![Oh!No](https://g/1.gif)"] :=
  ⟨by decide, by decide, by decide⟩

/-- C5 as amended: when a GIF is found, the posted body is the success
comment followed by a hashtag line made of the search term with
whitespace removed and the result lowercased (other non-alphanumeric
characters are kept), followed by an inline image reference to the GIF
URL. -/
theorem hashtag_whitespace_only (ev : PREvent) (env : Env) (s : List String)
    (r term url : String) (h : setHas s (dedupKey ev) = false)
    (hlab : ev.labelName = "truss-review") (hd : env.diffOk = true)
    (hr : env.roastRes = Except.ok r) (hg : env.gifTermRes = Except.ok term)
    (hu : searchGif term env.giphy = some url) (hp : env.successPostOk = true) :
    (runLabeled ev env s).posted =
      [createSuccessComment ev.authorLogin r ++ "\n\n#" ++
        jsToLower (stripWhitespace term) ++ "\n![" ++ term ++ "](" ++ url ++ ")"] := by
  obtain ⟨dOk, dTxt, rr, gr, gi, sOk, fOk⟩ := env
  subst hd hr hg hp
  rcases gi with _ | ⟨_ | ⟨e, rest⟩⟩
  · simp [searchGif] at hu
  · simp [searchGif] at hu
  · simp only [searchGif, Option.some.injEq] at hu
    subst hu
    simp [runLabeled, runLabeledE, tryBodyLabeled, postComment, h, hlab, initTrace,
      searchGif]

/-- Witness for C5 (amended) at the concrete run with term `Oh!No` and
a found GIF. -/
theorem hashtag_whitespace_only_witness :
    (runLabeled evA envAllOk []).posted =
      [createSuccessComment evA.authorLogin "R" ++ "\n\n#" ++
        jsToLower (stripWhitespace "Oh!No") ++ "\n![" ++ "Oh!No" ++ "](" ++
        "https://g/1.gif" ++ ")"] :=
  hashtag_whitespace_only evA envAllOk [] "R" "Oh!No" "https://g/1.gif"
    (by decide) rfl rfl rfl rfl rfl rfl

/-- C6: `searchGif` returns the first result's URL when the provider
returns at least one hit, `none` on an empty result, and `none` when
the provider call throws — it is a total `Option`-valued function, so a
media failure never raises; consequently, with the upstream steps
succeeding, the success comment is posted no matter what the Giphy
outcome is. -/
theorem searchGif_fail_open :
    (∀ term : String, searchGif term GiphyOutcome.err = none)
    ∧ (∀ term : String, searchGif term (GiphyOutcome.ok []) = none)
    ∧ (∀ (term : String) (e : GifEntry) (rest : List GifEntry),
        searchGif term (GiphyOutcome.ok (e :: rest)) = some e.images.original.url)
    ∧ (∀ (ev : PREvent) (env : Env) (s : List String),
        setHas s (dedupKey ev) = false → ev.labelName = "truss-review" →
        env.diffOk = true → (∃ r, env.roastRes = Except.ok r) →
        (∃ g, env.gifTermRes = Except.ok g) → env.successPostOk = true →
        (runLabeled ev env s).posted.length = 1) := by
  refine ⟨fun _ => rfl, fun _ => rfl, fun _ _ _ => rfl, ?_⟩
  rintro ev ⟨dOk, dTxt, rr, gr, gi, sOk, fOk⟩ s h hlab hd ⟨r, hr⟩ ⟨g, hg⟩ hp
  subst hd hr hg hp
  rcases gi with _ | ⟨_ | ⟨e, rest⟩⟩ <;>
    simp [runLabeled, runLabeledE, tryBodyLabeled, postComment, h, hlab, initTrace,
      searchGif]

/-- Witness for C6: a thrown Giphy call yields `none`, and the concrete
run with a thrown Giphy call still posts exactly one comment. -/
theorem searchGif_fail_open_witness :
    searchGif "Oh!No" GiphyOutcome.err = none
    ∧ (runLabeled evA envGiphyErr []).posted.length = 1 := by
  have h := searchGif_fail_open
  exact ⟨h.1 "Oh!No",
    h.2.2.2 evA envGiphyErr [] (by decide) rfl rfl ⟨"R", rfl⟩ ⟨"Oh!No", rfl⟩ rfl⟩

/-- Counterexample to C9 as stated: with `authorContext` present but
equal to the empty string, the code renders no author block (JavaScript
truthiness), so "the author-context block iff authorContext is present"
fails. -/
theorem user_prompt_counterexample :
    createUserPrompt statsW "+foo\n-bar" (some "") none ≠
      claimUserPrompt statsW "+foo\n-bar" (some "") none := by
  decide

/-- C9 as amended: the user prompt is the stats block, then the author
block iff `authorContext` is present and non-empty, then the style-guide
block iff `styleGuideContext` is present and non-empty, then the fenced
diff block, in that fixed order, each optional block all-or-nothing;
and the spec's concrete scenario renders as expected. -/
theorem user_prompt_structure :
    (∀ (stats : PRStats) (diff : String) (a sg : Option String),
      createUserPrompt stats diff a sg =
        specStatsBlock stats ++ amendedAuthorBlock a ++ amendedStyleBlock sg ++
          specDiffBlockAux diff)
    ∧ createUserPrompt statsW "+foo\n-bar" none none =
      "Review this PR:\n\n**Stats:**\n- 3 files changed\n- 10 additions\n- 2 deletions\n\n**Diff:**\n```diff\n+foo\n-bar\n```" := by
  constructor
  · intro stats diff a sg
    cases a <;> cases sg <;>
      simp only [createUserPrompt, specStatsBlock, amendedAuthorBlock, amendedStyleBlock,
        specDiffBlockAux, String.append_assoc]
  · decide

end TrussReview
